import Mathlib

/-!
# Verification of the finnotech-easy Oak service and token provider

Shallow embedding of the repository's `OakService` (src/unnamed/part_000,
the compiled `oak.service.js`) and `TokenService`
(src/dist/services/oak/oak.service.d.ts, which also carries the full
`token.service.ts` source and the `scopes.ts` constants).

JavaScript promises are modelled with `Except`: a rejected promise is
`Except.error`, a resolved one `Except.ok`.  Every operation additionally
returns the list of HTTP requests it handed to the injected transport, in
order, so that "exactly one call" and "zero network calls" are provable
statements.
-/

set_option maxHeartbeats 1000000

/-- Errors a method can reject with: `finnotech` models the repository's
`FinnotechError(eventName, message)`; `axiosErr` stands for an opaque
transport (Axios) error, identified only by an abstract code. -/
inductive JsError where
  | finnotech (eventName message : String)
  | axiosErr (code : Nat)
deriving DecidableEq

/-- `GRANT_TYPE` enum from `src/constants/scopes`. -/
inductive GRANT_TYPE where
  | CLIENT_CREDENTIALS
  | AUTHORIZATION_CODE
  | SMS
deriving DecidableEq

/-- The wire value of each `GRANT_TYPE` member in the source. -/
def GRANT_TYPE.value : GRANT_TYPE → String
  | .CLIENT_CREDENTIALS => "client_credentials"
  | .AUTHORIZATION_CODE => "authorization_code"
  | .SMS => ""

/-- The record handed to the `setTokens` delegate (see
`TokenService.setTokens` in token.service.ts). -/
structure TokenRecord where
  accessToken : String
  refreshToken : String
  lifeTime : Int
  scopes : List String
  tokenType : GRANT_TYPE
deriving DecidableEq

/-- One entry of the `SCOPES` registry from `src/constants/scopes`. -/
structure ScopeInfo where
  name : String
  authMode : GRANT_TYPE
deriving DecidableEq

/-- `SCOPES.ibanInquiry` from `src/constants/scopes`. -/
def SCOPES.ibanInquiry : ScopeInfo :=
  { name := "oak:iban-inquiry:get", authMode := .CLIENT_CREDENTIALS }

/-- `SCOPES.cardBalance` from `src/constants/scopes` (the source comment
there reads: "but the method is post"). -/
def SCOPES.cardBalance : ScopeInfo :=
  { name := "oak:card-balance:get", authMode := .CLIENT_CREDENTIALS }

/-- `SCOPES.cardStatement` from `src/constants/scopes`. -/
def SCOPES.cardStatement : ScopeInfo :=
  { name := "oak:card-statement:get", authMode := .CLIENT_CREDENTIALS }

/-- Modelled from the spec: the `SCOPES.groupIbanInquiryPost` entry is
referenced by `oak.service.js` but the excerpt of `src/constants/scopes`
in src/ stops after `cardStatement`; the spec only says the registry maps
each operation to a fixed scope name with a grant type.  The concrete
name string is a placeholder; no claim depends on it. -/
def SCOPES.groupIbanInquiryPost : ScopeInfo :=
  { name := "oak:group-iban-inquiry:post", authMode := .CLIENT_CREDENTIALS }

/-- Modelled from the spec: `SCOPES.groupIbanInquiryGet`, missing from the
scopes excerpt in src/ (see `SCOPES.groupIbanInquiryPost`). -/
def SCOPES.groupIbanInquiryGet : ScopeInfo :=
  { name := "oak:group-iban-inquiry:get", authMode := .CLIENT_CREDENTIALS }

/-- Modelled from the spec: `SCOPES.depositToIban`, missing from the
scopes excerpt in src/ (see `SCOPES.groupIbanInquiryPost`). -/
def SCOPES.depositToIban : ScopeInfo :=
  { name := "oak:deposit-to-iban:get", authMode := .CLIENT_CREDENTIALS }

/-- Modelled from the spec: `SCOPES.cifInquiry`, missing from the scopes
excerpt in src/ (see `SCOPES.groupIbanInquiryPost`). -/
def SCOPES.cifInquiry : ScopeInfo :=
  { name := "oak:cif-inquiry:get", authMode := .CLIENT_CREDENTIALS }

/-- Modelled from the spec: `SCOPES.shahabInquiry`, missing from the
scopes excerpt in src/ (see `SCOPES.groupIbanInquiryPost`). -/
def SCOPES.shahabInquiry : ScopeInfo :=
  { name := "oak:shahab-inquiry:get", authMode := .CLIENT_CREDENTIALS }

/-! ## Base64 (Node `Buffer` semantics)

`TokenService` builds its Basic auth header with
`Buffer.from(s).toString('base64')` and `OakService.submitGroupIbanInquiry`
decodes a base64 file with `Buffer.from(s, 'base64')`.  These are Node
platform primitives; the definitions below model them with the standard
base64 alphabet and padding (the decoder is faithful on well-formed
base64 text, which is the only shape the round-trip claim needs). -/

/-- The standard base64 alphabet used by Node's `Buffer`. -/
def b64Alphabet : List Char :=
  "ABCDEFGHIJKLMNOPQRSTUVWXYZabcdefghijklmnopqrstuvwxyz0123456789+/".data

/-- Sextet value `n` (0..63) to its base64 character. -/
def b64Char (n : Nat) : Char := b64Alphabet.getD n '?'

/-- Base64 character back to its sextet value (64 for foreign characters). -/
def b64Index (c : Char) : Nat :=
  if 'A' ≤ c ∧ c ≤ 'Z' then c.toNat - 65
  else if 'a' ≤ c ∧ c ≤ 'z' then c.toNat - 97 + 26
  else if '0' ≤ c ∧ c ≤ '9' then c.toNat - 48 + 52
  else if c = '+' then 62
  else if c = '/' then 63
  else 64

/-- Base64 encoding of a byte list, three bytes to four characters, with
trailing `=` padding, as `Buffer.toString('base64')` produces. -/
def base64EncodeBytes : List Nat → List Char
  | [] => []
  | [b1] => [b64Char (b1 / 4), b64Char (b1 % 4 * 16), '=', '=']
  | [b1, b2] => [b64Char (b1 / 4), b64Char (b1 % 4 * 16 + b2 / 16),
                 b64Char (b2 % 16 * 4), '=']
  | b1 :: b2 :: b3 :: rest =>
    b64Char (b1 / 4) :: b64Char (b1 % 4 * 16 + b2 / 16) ::
    b64Char (b2 % 16 * 4 + b3 / 64) :: b64Char (b3 % 64) ::
    base64EncodeBytes rest

/-- Base64 decoding of a character list, four characters to three bytes,
honouring `=` padding, as `Buffer.from(s, 'base64')` does on well-formed
base64 text. -/
def base64DecodeChars : List Char → List Nat
  | c1 :: c2 :: c3 :: c4 :: rest =>
    if c3 = '=' then [b64Index c1 * 4 + b64Index c2 / 16]
    else if c4 = '=' then
      [b64Index c1 * 4 + b64Index c2 / 16,
       b64Index c2 % 16 * 16 + b64Index c3 / 4]
    else
      (b64Index c1 * 4 + b64Index c2 / 16) ::
      (b64Index c2 % 16 * 16 + b64Index c3 / 4) ::
      (b64Index c3 % 4 * 64 + b64Index c4) :: base64DecodeChars rest
  | _ => []

/-- `Buffer.toString('base64')` on a byte list, as a `String`. -/
def base64Encode (bytes : List Nat) : String := String.mk (base64EncodeBytes bytes)

/-- `Buffer.from(s, 'base64')` as a byte list. -/
def base64Decode (s : String) : List Nat := base64DecodeChars s.data

/-- `Buffer.from(s)`: the UTF-8 bytes of a string, as `Nat`s below 256. -/
def utf8Bytes (s : String) : List Nat := s.toUTF8.toList.map (fun b => b.toNat)

/-! ## HTTP request envelopes -/

/-- One part of a `form-data` multipart body: either a file attachment
(`dataForm.append(name, buffer, filename)`) or a plain text field
(`dataForm.append(name, value)`). -/
inductive FormPart where
  | file (name : String) (content : List Nat) (filename : String)
  | field (name : String) (value : String)
deriving DecidableEq

/-- Body of an outgoing request: absent (GET), a JSON object of string
fields, or a multipart form. -/
inductive ReqBody where
  | empty
  | json (fields : List (String × String))
  | form (parts : List FormPart)
deriving DecidableEq

/-- The request envelope handed to the injected Axios transport: HTTP
method, path, query parameters, headers and body. -/
structure HttpRequest where
  method : String
  path : String
  params : List (String × String)
  headers : List (String × String)
  body : ReqBody
deriving DecidableEq

/-- An Axios response; the services only ever read its `data` field. -/
structure AxiosResponse (D : Type) where
  data : D
deriving DecidableEq

/-! ## TokenService (token.service.ts) -/

/-- State of a `TokenService` instance: the client identity and the three
optional delegate callbacks supplied at construction.  A callback is a
function from its argument to an `Except` (a JS function that may throw
or reject). -/
structure TokenService where
  clientId : String
  clientSecret : String
  nid : String
  getAccessTokenFn : Option (String → Except JsError String)
  getRefreshTokenFn : Option (String → Except JsError String)
  setTokensFn : Option (TokenRecord → Except JsError Unit)

/-- `TokenService.getAccessToken`: throws `FinnotechError` when the
delegate is missing, otherwise awaits the delegate.  (The source's
sync-versus-async distinction collapses under `await`.) -/
def TokenService.getAccessToken (ts : TokenService) (scopeName : String) :
    Except JsError String :=
  match ts.getAccessTokenFn with
  | none => .error (.finnotech "getAccessToken" "getAccessToken function is not defined")
  | some f => f scopeName

/-- `TokenService.getRefreshToken`: same contract as `getAccessToken`
with the refresh-token delegate. -/
def TokenService.getRefreshToken (ts : TokenService) (scopeName : String) :
    Except JsError String :=
  match ts.getRefreshTokenFn with
  | none => .error (.finnotech "getRefreshToken" "getRefreshToken function is not defined")
  | some f => f scopeName

/-- `TokenService.setTokens`: throws `FinnotechError` when the delegate is
missing, otherwise awaits the delegate on the token record. -/
def TokenService.setTokens (ts : TokenService) (tokenData : TokenRecord) :
    Except JsError Unit :=
  match ts.setTokensFn with
  | none => .error (.finnotech "setTokens" "setTokens function is not defined")
  | some f => f tokenData

/-- `setTokens` instrumented with the list of records actually handed to
the delegate (empty when the delegate is missing, since the source throws
before invoking anything). -/
def TokenService.setTokensTraced (ts : TokenService) (tokenData : TokenRecord) :
    Except JsError Unit × List TokenRecord :=
  match ts.setTokensFn with
  | none => (.error (.finnotech "setTokens" "setTokens function is not defined"), [])
  | some f => (f tokenData, [tokenData])

/-- The `result` object inside a successful token-endpoint response body
(`finnotechResponse.data.result`). -/
structure TokenEndpointResult where
  value : String
  refreshToken : String
  lifeTime : Int
  scopes : List String
deriving DecidableEq

/-- The parsed body of a token-endpoint response (`finnotechResponse.data`). -/
structure TokenEndpointData where
  result : TokenEndpointResult
deriving DecidableEq

/-- Everything observable about one run of a token-acquisition flow: its
outcome, the HTTP requests issued (in order), and the records handed to
the `setTokens` delegate (in order). -/
structure TokenFlowTrace where
  result : Except JsError Unit
  httpCalls : List HttpRequest
  setTokensCalls : List TokenRecord

/-- `TokenService.getClientCredentialToken`: rejects with `FinnotechError`
on an empty scope list before any network activity; otherwise issues one
POST to `/dev/v2/oauth2/token` with a Basic auth header built from
`base64(clientId:clientSecret)` and body
`grant_type=client_credentials, nid, scopes=comma-joined`, then hands the
extracted result to `setTokens` with `tokenType = CLIENT_CREDENTIALS`.
Transport and `setTokens` errors are rethrown unchanged. -/
def TokenService.getClientCredentialToken (ts : TokenService)
    (transport : HttpRequest → Except JsError (AxiosResponse TokenEndpointData))
    (scopes : List String) : TokenFlowTrace :=
  if scopes.length = 0 then
    { result := .error (.finnotech "getClientCredentialToken" "scopes should not be empty"),
      httpCalls := [], setTokensCalls := [] }
  else
    let authHeader := "Basic " ++ base64Encode (utf8Bytes (ts.clientId ++ ":" ++ ts.clientSecret))
    let requestData : List (String × String) :=
      [("grant_type", "client_credentials"), ("nid", ts.nid),
       ("scopes", String.intercalate "," scopes)]
    let req : HttpRequest :=
      { method := "POST", path := "/dev/v2/oauth2/token", params := [],
        headers := [("Authorization", authHeader)], body := .json requestData }
    match transport req with
    | .error e => { result := .error e, httpCalls := [req], setTokensCalls := [] }
    | .ok resp =>
      let r := resp.data.result
      let record : TokenRecord :=
        { accessToken := r.value, refreshToken := r.refreshToken,
          lifeTime := r.lifeTime, scopes := r.scopes,
          tokenType := .CLIENT_CREDENTIALS }
      let st := ts.setTokensTraced record
      { result := st.1, httpCalls := [req], setTokensCalls := st.2 }

/-- `TokenService.getClientCredentialsRefreshToken`: first awaits
`getRefreshToken(scopeName)` (outside the try block — its failure
propagates before any HTTP call); then issues one POST to
`/dev/v2/oauth2/token` with the same Basic auth header and body
`grant_type=refresh_token, token_type=CLIENT-CREDENTIAL, refresh_token`;
then hands the extracted result to `setTokens`. -/
def TokenService.getClientCredentialsRefreshToken (ts : TokenService)
    (transport : HttpRequest → Except JsError (AxiosResponse TokenEndpointData))
    (scopeName : String) : TokenFlowTrace :=
  match ts.getRefreshToken scopeName with
  | .error e => { result := .error e, httpCalls := [], setTokensCalls := [] }
  | .ok scopeRefreshToken =>
    let authHeader := "Basic " ++ base64Encode (utf8Bytes (ts.clientId ++ ":" ++ ts.clientSecret))
    let requestData : List (String × String) :=
      [("grant_type", "refresh_token"), ("token_type", "CLIENT-CREDENTIAL"),
       ("refresh_token", scopeRefreshToken)]
    let req : HttpRequest :=
      { method := "POST", path := "/dev/v2/oauth2/token", params := [],
        headers := [("Authorization", authHeader)], body := .json requestData }
    match transport req with
    | .error e => { result := .error e, httpCalls := [req], setTokensCalls := [] }
    | .ok resp =>
      let r := resp.data.result
      let record : TokenRecord :=
        { accessToken := r.value, refreshToken := r.refreshToken,
          lifeTime := r.lifeTime, scopes := r.scopes,
          tokenType := .CLIENT_CREDENTIALS }
      let st := ts.setTokensTraced record
      { result := st.1, httpCalls := [req], setTokensCalls := st.2 }

/-! ## OakService (oak.service.js)

Each method is a function of the environment (the token service, the
value `generateUUID()` would return on this call, and the headers
`dataForm.getHeaders()` would contribute), the injected transport, and the
call's inputs.  It returns the settled promise together with the list of
HTTP requests issued. -/

/-- Environment of one `OakService` call: the injected `TokenService`, the
identifier `generateUUID()` would produce if invoked during this call, and
the headers `form-data`'s `getHeaders()` would produce (its random
boundary makes them per-call data, not code). -/
structure OakEnv where
  ts : TokenService
  uuid : String
  formHeaders : List (String × String)

/-- JavaScript `a || b` on an optional string: `undefined` and the empty
string (the only falsy string) both fall through to `b`. -/
def jsOr (v : Option String) (alt : String) : String :=
  match v with
  | none => alt
  | some s => if s = "" then alt else s

/-- The `file` argument of `submitGroupIbanInquiry`: a raw byte buffer or
base64-encoded text (`data.file instanceof Buffer` decides which). -/
inductive FileInput where
  | buffer (bytes : List Nat)
  | base64 (s : String)

/-- `finalFile` as computed in `submitGroupIbanInquiry`: a buffer is used
as-is, a string is decoded with `Buffer.from(s, 'base64')`. -/
def FileInput.finalFile : FileInput → List Nat
  | .buffer b => b
  | .base64 s => base64Decode s

/-- `OakService.ibanInquiry`: GET
`/oak/v2/clients/(clientId)/ibanInquiry` with query `iban`, `trackId`,
Bearer auth and `X-Scope-Name` headers; returns `response.data`; a
transport error is rethrown unchanged. -/
def OakService.ibanInquiry {D : Type} (env : OakEnv)
    (transport : HttpRequest → Except JsError (AxiosResponse D))
    (iban : String) (trackId : Option String) :
    Except JsError D × List HttpRequest :=
  let serviceScope := SCOPES.ibanInquiry.name
  let clientId := env.ts.clientId
  let path := "/oak/v2/clients/" ++ clientId ++ "/ibanInquiry"
  let finalTrackId := jsOr trackId env.uuid
  match env.ts.getAccessToken serviceScope with
  | .error e => (.error e, [])
  | .ok accessToken =>
    let req : HttpRequest :=
      { method := "GET", path := path,
        params := [("iban", iban), ("trackId", finalTrackId)],
        headers := [("Authorization", "Bearer " ++ accessToken),
                    ("X-Scope-Name", serviceScope)],
        body := .empty }
    match transport req with
    | .ok resp => (.ok resp.data, [req])
    | .error e => (.error e, [req])

/-- `OakService.submitGroupIbanInquiry`: POST
`/oak/v2/clients/(clientId)/groupIbanInquiry` with query `trackId`, a
multipart body carrying the file as `ibansFile` named `ibans.csv`, the
form headers plus Bearer auth and `X-Scope-Name`. -/
def OakService.submitGroupIbanInquiry {D : Type} (env : OakEnv)
    (transport : HttpRequest → Except JsError (AxiosResponse D))
    (file : FileInput) (trackId : Option String) :
    Except JsError D × List HttpRequest :=
  let serviceScope := SCOPES.groupIbanInquiryPost.name
  let clientId := env.ts.clientId
  let path := "/oak/v2/clients/" ++ clientId ++ "/groupIbanInquiry"
  let finalTrackId := jsOr trackId env.uuid
  match env.ts.getAccessToken serviceScope with
  | .error e => (.error e, [])
  | .ok accessToken =>
    let dataForm : List FormPart := [.file "ibansFile" file.finalFile "ibans.csv"]
    let req : HttpRequest :=
      { method := "POST", path := path,
        params := [("trackId", finalTrackId)],
        headers := env.formHeaders ++
          [("Authorization", "Bearer " ++ accessToken),
           ("X-Scope-Name", serviceScope)],
        body := .form dataForm }
    match transport req with
    | .ok resp => (.ok resp.data, [req])
    | .error e => (.error e, [req])

/-- `OakService.retryGroupIbanInquiry`: POST
`/oak/v2/clients/(clientId)/groupIbanInquiry` with a multipart body of the
`retry` marker and the `inquiryTrackId` field. -/
def OakService.retryGroupIbanInquiry {D : Type} (env : OakEnv)
    (transport : HttpRequest → Except JsError (AxiosResponse D))
    (inquiryTrackId : String) (trackId : Option String) :
    Except JsError D × List HttpRequest :=
  let serviceScope := SCOPES.groupIbanInquiryPost.name
  let clientId := env.ts.clientId
  let path := "/oak/v2/clients/" ++ clientId ++ "/groupIbanInquiry"
  let finalTrackId := jsOr trackId env.uuid
  match env.ts.getAccessToken serviceScope with
  | .error e => (.error e, [])
  | .ok accessToken =>
    let dataForm : List FormPart :=
      [.field "retry" "true", .field "inquiryTrackId" inquiryTrackId]
    let req : HttpRequest :=
      { method := "POST", path := path,
        params := [("trackId", finalTrackId)],
        headers := env.formHeaders ++
          [("Authorization", "Bearer " ++ accessToken),
           ("X-Scope-Name", serviceScope)],
        body := .form dataForm }
    match transport req with
    | .ok resp => (.ok resp.data, [req])
    | .error e => (.error e, [req])

/-- `OakService.getResultOfGroupIbanInquiry`: GET
`/oak/v2/clients/(clientId)/groupIbanInquiry` with query `inquiryTrackId`
and `trackId`. -/
def OakService.getResultOfGroupIbanInquiry {D : Type} (env : OakEnv)
    (transport : HttpRequest → Except JsError (AxiosResponse D))
    (inquiryTrackId : String) (trackId : Option String) :
    Except JsError D × List HttpRequest :=
  let serviceScope := SCOPES.groupIbanInquiryGet.name
  let clientId := env.ts.clientId
  let path := "/oak/v2/clients/" ++ clientId ++ "/groupIbanInquiry"
  let finalTrackId := jsOr trackId env.uuid
  match env.ts.getAccessToken serviceScope with
  | .error e => (.error e, [])
  | .ok accessToken =>
    let req : HttpRequest :=
      { method := "GET", path := path,
        params := [("inquiryTrackId", inquiryTrackId), ("trackId", finalTrackId)],
        headers := [("Authorization", "Bearer " ++ accessToken),
                    ("X-Scope-Name", serviceScope)],
        body := .empty }
    match transport req with
    | .ok resp => (.ok resp.data, [req])
    | .error e => (.error e, [req])

/-- `OakService.cardBalance`: POST
`/oak/v2/clients/(clientId)/card/balance` with JSON body `card`, query
`trackId`, and the `oak:card-balance:get` scope both for the token fetch
and the `X-Scope-Name` header. -/
def OakService.cardBalance {D : Type} (env : OakEnv)
    (transport : HttpRequest → Except JsError (AxiosResponse D))
    (card : String) (trackId : Option String) :
    Except JsError D × List HttpRequest :=
  let serviceScope := SCOPES.cardBalance.name
  let clientId := env.ts.clientId
  let path := "/oak/v2/clients/" ++ clientId ++ "/card/balance"
  let finalTrackId := jsOr trackId env.uuid
  match env.ts.getAccessToken serviceScope with
  | .error e => (.error e, [])
  | .ok accessToken =>
    let req : HttpRequest :=
      { method := "POST", path := path,
        params := [("trackId", finalTrackId)],
        headers := [("Authorization", "Bearer " ++ accessToken),
                    ("X-Scope-Name", serviceScope)],
        body := .json [("card", card)] }
    match transport req with
    | .ok resp => (.ok resp.data, [req])
    | .error e => (.error e, [req])

/-- `OakService.cardStatement`: POST
`/oak/v2/clients/(clientId)/card/statement` with JSON body `card`,
`fromDate || ''`, `toDate || ''`. -/
def OakService.cardStatement {D : Type} (env : OakEnv)
    (transport : HttpRequest → Except JsError (AxiosResponse D))
    (card : String) (fromDate toDate : Option String) (trackId : Option String) :
    Except JsError D × List HttpRequest :=
  let serviceScope := SCOPES.cardStatement.name
  let clientId := env.ts.clientId
  let path := "/oak/v2/clients/" ++ clientId ++ "/card/statement"
  let finalTrackId := jsOr trackId env.uuid
  match env.ts.getAccessToken serviceScope with
  | .error e => (.error e, [])
  | .ok accessToken =>
    let req : HttpRequest :=
      { method := "POST", path := path,
        params := [("trackId", finalTrackId)],
        headers := [("Authorization", "Bearer " ++ accessToken),
                    ("X-Scope-Name", serviceScope)],
        body := .json [("card", card), ("fromDate", jsOr fromDate ""),
                       ("toDate", jsOr toDate "")] }
    match transport req with
    | .ok resp => (.ok resp.data, [req])
    | .error e => (.error e, [req])

/-- `OakService.depositToIban`: GET `/oak/v2/clients/(clientId)/iban` with
query `bank`, `deposit`, `trackId`. -/
def OakService.depositToIban {D : Type} (env : OakEnv)
    (transport : HttpRequest → Except JsError (AxiosResponse D))
    (bank deposit : String) (trackId : Option String) :
    Except JsError D × List HttpRequest :=
  let serviceScope := SCOPES.depositToIban.name
  let clientId := env.ts.clientId
  let path := "/oak/v2/clients/" ++ clientId ++ "/iban"
  let finalTrackId := jsOr trackId env.uuid
  match env.ts.getAccessToken serviceScope with
  | .error e => (.error e, [])
  | .ok accessToken =>
    let req : HttpRequest :=
      { method := "GET", path := path,
        params := [("bank", bank), ("deposit", deposit), ("trackId", finalTrackId)],
        headers := [("Authorization", "Bearer " ++ accessToken),
                    ("X-Scope-Name", serviceScope)],
        body := .empty }
    match transport req with
    | .ok resp => (.ok resp.data, [req])
    | .error e => (.error e, [req])

/-- `OakService.cifInquiry`: GET
`/oak/v2/clients/(clientId)/users/(nid)/cifInquiry` with query `trackId`. -/
def OakService.cifInquiry {D : Type} (env : OakEnv)
    (transport : HttpRequest → Except JsError (AxiosResponse D))
    (nid : String) (trackId : Option String) :
    Except JsError D × List HttpRequest :=
  let serviceScope := SCOPES.cifInquiry.name
  let clientId := env.ts.clientId
  let path := "/oak/v2/clients/" ++ clientId ++ "/users/" ++ nid ++ "/cifInquiry"
  let finalTrackId := jsOr trackId env.uuid
  match env.ts.getAccessToken serviceScope with
  | .error e => (.error e, [])
  | .ok accessToken =>
    let req : HttpRequest :=
      { method := "GET", path := path,
        params := [("trackId", finalTrackId)],
        headers := [("Authorization", "Bearer " ++ accessToken),
                    ("X-Scope-Name", serviceScope)],
        body := .empty }
    match transport req with
    | .ok resp => (.ok resp.data, [req])
    | .error e => (.error e, [req])

/-- `OakService.shahabInquiry`: GET
`/oak/v2/clients/(clientId)/users/(nid)/shahabInquiry` with query
`birthDate`, `identityNo = identityNumber || ''`, `trackId`. -/
def OakService.shahabInquiry {D : Type} (env : OakEnv)
    (transport : HttpRequest → Except JsError (AxiosResponse D))
    (nid birthDate : String) (identityNumber : Option String)
    (trackId : Option String) :
    Except JsError D × List HttpRequest :=
  let serviceScope := SCOPES.shahabInquiry.name
  let clientId := env.ts.clientId
  let path := "/oak/v2/clients/" ++ clientId ++ "/users/" ++ nid ++ "/shahabInquiry"
  let finalTrackId := jsOr trackId env.uuid
  match env.ts.getAccessToken serviceScope with
  | .error e => (.error e, [])
  | .ok accessToken =>
    let req : HttpRequest :=
      { method := "GET", path := path,
        params := [("birthDate", birthDate),
                   ("identityNo", jsOr identityNumber ""),
                   ("trackId", finalTrackId)],
        headers := [("Authorization", "Bearer " ++ accessToken),
                    ("X-Scope-Name", serviceScope)],
        body := .empty }
    match transport req with
    | .ok resp => (.ok resp.data, [req])
    | .error e => (.error e, [req])

/-! ## Concrete fixtures for witnesses -/

/-- A concrete token service with all three delegates present. -/
def sampleTS : TokenService :=
  { clientId := "cid", clientSecret := "secret", nid := "0012345678",
    getAccessTokenFn := some (fun _ => .ok "TOK"),
    getRefreshTokenFn := some (fun _ => .ok "REFTOK"),
    setTokensFn := some (fun _ => .ok ()) }

/-- A concrete call environment. -/
def sampleEnv : OakEnv :=
  { ts := sampleTS, uuid := "UUID-1",
    formHeaders := [("content-type", "multipart/form-data; boundary=X")] }

/-- A concrete always-succeeding transport. -/
def sampleTransport : HttpRequest → Except JsError (AxiosResponse Nat) :=
  fun _ => .ok { data := 7 }

/-- A concrete always-succeeding token-endpoint transport. -/
def sampleTokenTransport : HttpRequest → Except JsError (AxiosResponse TokenEndpointData) :=
  fun _ => .ok { data := { result := { value := "T", refreshToken := "R",
                                       lifeTime := 3600, scopes := ["s1"] } } }

/-- A concrete transport that always fails, like an HTTP 500. -/
def failTransport : HttpRequest → Except JsError (AxiosResponse Nat) :=
  fun _ => .error (.axiosErr 500)

/-- A concrete call environment whose access-token delegate always
rejects. -/
def failingAccessEnv : OakEnv :=
  { ts := { clientId := "cid", clientSecret := "secret", nid := "0012345678",
            getAccessTokenFn := some (fun _ => .error (.axiosErr 401)),
            getRefreshTokenFn := none, setTokensFn := none },
    uuid := "UUID-1",
    formHeaders := [("content-type", "multipart/form-data; boundary=X")] }

/-! ## Helper lemmas -/

/-- Decoding a base64 character recovers the sextet it encodes. -/
theorem b64Index_b64Char : ∀ n < 64, b64Index (b64Char n) = n := by decide

/-- No base64 alphabet character is the padding character. -/
theorem b64Char_ne_pad : ∀ n < 64, b64Char n ≠ '=' := by decide

/-- Base64 round trip on byte lists: decoding an encoding gives back the
original bytes. -/
theorem base64DecodeChars_encode : ∀ (bs : List Nat), (∀ b ∈ bs, b < 256) →
    base64DecodeChars (base64EncodeBytes bs) = bs
  | [], _ => rfl
  | [b1], h => by
    have hb1 : b1 < 256 := h b1 (by simp)
    have h1 := b64Index_b64Char (b1 / 4) (by omega)
    have h2 := b64Index_b64Char (b1 % 4 * 16) (by omega)
    simp [base64EncodeBytes, base64DecodeChars, h1, h2]
    omega
  | [b1, b2], h => by
    have hb1 : b1 < 256 := h b1 (by simp)
    have hb2 : b2 < 256 := h b2 (by simp)
    have h1 := b64Index_b64Char (b1 / 4) (by omega)
    have h2 := b64Index_b64Char (b1 % 4 * 16 + b2 / 16) (by omega)
    have h3 := b64Index_b64Char (b2 % 16 * 4) (by omega)
    have hne : b64Char (b2 % 16 * 4) ≠ '=' := b64Char_ne_pad _ (by omega)
    simp [base64EncodeBytes, base64DecodeChars, h1, h2, h3, hne]
    constructor <;> omega
  | b1 :: b2 :: b3 :: rest, h => by
    have hb1 : b1 < 256 := h b1 (by simp)
    have hb2 : b2 < 256 := h b2 (by simp)
    have hb3 : b3 < 256 := h b3 (by simp)
    have ih := base64DecodeChars_encode rest (fun b hb => h b (by simp [hb]))
    have h1 := b64Index_b64Char (b1 / 4) (by omega)
    have h2 := b64Index_b64Char (b1 % 4 * 16 + b2 / 16) (by omega)
    have h3 := b64Index_b64Char (b2 % 16 * 4 + b3 / 64) (by omega)
    have h4 := b64Index_b64Char (b3 % 64) (by omega)
    have hne3 : b64Char (b2 % 16 * 4 + b3 / 64) ≠ '=' := b64Char_ne_pad _ (by omega)
    have hne4 : b64Char (b3 % 64) ≠ '=' := b64Char_ne_pad _ (by omega)
    simp [base64EncodeBytes, base64DecodeChars, h1, h2, h3, h4, hne3, hne4, ih]
    refine ⟨by omega, by omega, by omega⟩

/-! ## Claim theorems -/

/-- C5: `getClientCredentialToken` applied to the empty scopes list fails
with the `InvalidArgument` error (`FinnotechError` with message "scopes
should not be empty"), before any network activity: for every token
service and every transport the trace has the error, zero HTTP calls and
zero `setTokens` invocations. -/
theorem C5_empty_scopes_rejected (ts : TokenService)
    (transport : HttpRequest → Except JsError (AxiosResponse TokenEndpointData)) :
    ts.getClientCredentialToken transport [] =
      { result := .error (.finnotech "getClientCredentialToken" "scopes should not be empty"),
        httpCalls := [], setTokensCalls := [] } := rfl

/-- C6: each of `getAccessToken`, `getRefreshToken` and `setTokens`
rejects with the `MissingDelegate` error (`FinnotechError` naming the
method) when the corresponding delegate was not supplied at construction;
the traced form of `setTokens` records that the delegate was never
invoked.  (None of the three touches the transport: their embeddings do
not even take one, mirroring the source bodies, so zero HTTP calls are
issued by construction.) -/
theorem C6_missing_delegate_errors (cid cs nid : String)
    (gaf grf : Option (String → Except JsError String))
    (stf : Option (TokenRecord → Except JsError Unit))
    (scopeName : String) (record : TokenRecord) :
    TokenService.getAccessToken ⟨cid, cs, nid, none, grf, stf⟩ scopeName
      = .error (.finnotech "getAccessToken" "getAccessToken function is not defined")
    ∧ TokenService.getRefreshToken ⟨cid, cs, nid, gaf, none, stf⟩ scopeName
      = .error (.finnotech "getRefreshToken" "getRefreshToken function is not defined")
    ∧ TokenService.setTokens ⟨cid, cs, nid, gaf, grf, none⟩ record
      = .error (.finnotech "setTokens" "setTokens function is not defined")
    ∧ TokenService.setTokensTraced ⟨cid, cs, nid, gaf, grf, none⟩ record
      = (.error (.finnotech "setTokens" "setTokens function is not defined"), []) :=
  ⟨rfl, rfl, rfl, rfl⟩

/-- C3: on a successful token-endpoint response whose `result` carries
`value`, `refreshToken`, `lifeTime` and `scopes`, and with a `setTokens`
delegate configured, `getClientCredentialToken` invokes that delegate
exactly once, with the record
`accessToken = value, refreshToken, lifeTime, scopes,
tokenType = CLIENT_CREDENTIALS`. -/
theorem C3_client_credential_setTokens_record (cid cs nid : String)
    (gaf grf : Option (String → Except JsError String))
    (f : TokenRecord → Except JsError Unit)
    (res : TokenEndpointResult)
    (transport : HttpRequest → Except JsError (AxiosResponse TokenEndpointData))
    (ht : ∀ r, transport r = .ok ⟨⟨res⟩⟩)
    (scopes : List String) (hs : scopes.length ≠ 0) :
    (TokenService.getClientCredentialToken ⟨cid, cs, nid, gaf, grf, some f⟩
        transport scopes).setTokensCalls
      = [{ accessToken := res.value, refreshToken := res.refreshToken,
           lifeTime := res.lifeTime, scopes := res.scopes,
           tokenType := .CLIENT_CREDENTIALS }] := by
  simp [TokenService.getClientCredentialToken, TokenService.setTokensTraced, ht, hs]

/-- C3 witness: the spec's concrete example, response
`value = "T", refreshToken = "R", lifeTime = 3600, scopes = ["s1"]`. -/
theorem C3_client_credential_setTokens_record_witness :
    (∀ r, sampleTokenTransport r = .ok ⟨⟨⟨"T", "R", 3600, ["s1"]⟩⟩⟩) ∧
    (["s1"] : List String).length ≠ 0 ∧
    (TokenService.getClientCredentialToken
        ⟨"cid", "secret", "0012345678", none, none, some (fun _ => .ok ())⟩
        sampleTokenTransport ["s1"]).setTokensCalls
      = [{ accessToken := "T", refreshToken := "R", lifeTime := 3600,
           scopes := ["s1"], tokenType := .CLIENT_CREDENTIALS }] :=
  ⟨fun _ => rfl, by decide,
    C3_client_credential_setTokens_record "cid" "secret" "0012345678" none none
      (fun _ => .ok ()) ⟨"T", "R", 3600, ["s1"]⟩ sampleTokenTransport
      (fun _ => rfl) ["s1"] (by decide)⟩

/-- C4: with a refresh-token delegate returning `rt` and a `setTokens`
delegate `f`, `getClientCredentialsRefreshToken scopeName` issues exactly
one POST to `/dev/v2/oauth2/token` whose Basic auth header is built from
`base64(clientId:clientSecret)` and whose body is
`grant_type = refresh_token, token_type = CLIENT-CREDENTIAL,
refresh_token = rt`, and hands the extracted result to `setTokens`;
moreover (ordering) if `getRefreshToken` rejects, the flow rejects with
that error and issues zero HTTP calls. -/
theorem C4_refresh_token_flow (cid cs nid : String)
    (gaf : Option (String → Except JsError String)) (rt : String)
    (f : TokenRecord → Except JsError Unit) (res : TokenEndpointResult)
    (transport : HttpRequest → Except JsError (AxiosResponse TokenEndpointData))
    (ht : ∀ r, transport r = .ok ⟨⟨res⟩⟩) (scopeName : String) :
    TokenService.getClientCredentialsRefreshToken
        ⟨cid, cs, nid, gaf, some (fun _ => .ok rt), some f⟩ transport scopeName
      = { result := f { accessToken := res.value, refreshToken := res.refreshToken,
                        lifeTime := res.lifeTime, scopes := res.scopes,
                        tokenType := .CLIENT_CREDENTIALS },
          httpCalls := [{ method := "POST", path := "/dev/v2/oauth2/token",
                          params := [],
                          headers := [("Authorization",
                            "Basic " ++ base64Encode (utf8Bytes (cid ++ ":" ++ cs)))],
                          body := .json [("grant_type", "refresh_token"),
                                         ("token_type", "CLIENT-CREDENTIAL"),
                                         ("refresh_token", rt)] }],
          setTokensCalls := [{ accessToken := res.value,
                               refreshToken := res.refreshToken, lifeTime := res.lifeTime,
                               scopes := res.scopes, tokenType := .CLIENT_CREDENTIALS }] }
    ∧ (∀ e : JsError,
        TokenService.getClientCredentialsRefreshToken
            ⟨cid, cs, nid, gaf, some (fun _ => .error e), some f⟩ transport scopeName
          = { result := .error e, httpCalls := [], setTokensCalls := [] }) := by
  constructor
  · simp [TokenService.getClientCredentialsRefreshToken, TokenService.getRefreshToken,
          TokenService.setTokensTraced, ht]
  · intro e
    simp [TokenService.getClientCredentialsRefreshToken, TokenService.getRefreshToken]

/-- C4 witness: concrete identity, delegates and response. -/
theorem C4_refresh_token_flow_witness :
    (∀ r, sampleTokenTransport r = .ok ⟨⟨⟨"T", "R", 3600, ["s1"]⟩⟩⟩) ∧
    (TokenService.getClientCredentialsRefreshToken
        ⟨"cid", "secret", "0012345678", none, some (fun _ => .ok "REFTOK"),
         some (fun _ => .ok ())⟩ sampleTokenTransport "oak:iban-inquiry:get"
      = { result := .ok (),
          httpCalls := [{ method := "POST", path := "/dev/v2/oauth2/token",
                          params := [],
                          headers := [("Authorization",
                            "Basic " ++ base64Encode (utf8Bytes ("cid" ++ ":" ++ "secret")))],
                          body := .json [("grant_type", "refresh_token"),
                                         ("token_type", "CLIENT-CREDENTIAL"),
                                         ("refresh_token", "REFTOK")] }],
          setTokensCalls := [{ accessToken := "T", refreshToken := "R",
                               lifeTime := 3600, scopes := ["s1"],
                               tokenType := .CLIENT_CREDENTIALS }] }) :=
  ⟨fun _ => rfl,
    ((C4_refresh_token_flow "cid" "secret" "0012345678" none "REFTOK"
        (fun _ => .ok ()) ⟨"T", "R", 3600, ["s1"]⟩ sampleTokenTransport
        (fun _ => rfl) "oak:iban-inquiry:get").1)⟩

/-- C1 counterexample: the claim fails for the caller-supplied trackId
`""`.  JavaScript's `trackId || generateUUID()` treats the empty string
as falsy, so the outgoing query carries the generated identifier
(`sampleEnv.uuid = "UUID-1"`) instead of the supplied `""`: the supplied
trackId is not used verbatim. -/
theorem C1_empty_trackId_replaced :
    ((OakService.ibanInquiry sampleEnv sampleTransport "IR123" (some "")).2.map
        HttpRequest.params = [[("iban", "IR123"), ("trackId", "UUID-1")]])
    ∧ ¬ (∀ r ∈ (OakService.ibanInquiry sampleEnv sampleTransport "IR123" (some "")).2,
          ("trackId", "") ∈ r.params) := by
  constructor
  · rfl
  · decide

/-- C1 (amended): for every OakService operation and every caller-supplied
non-empty trackId string, the supplied trackId is used verbatim as the
`trackId` query parameter of every outgoing HTTP request; a supplied
empty string is falsy under `||` and is replaced by a generated
identifier. -/
theorem C1_supplied_trackId_verbatim {D : Type} (env : OakEnv)
    (transport : HttpRequest → Except JsError (AxiosResponse D))
    (tId : String) (htId : tId ≠ "")
    (iban inquiryTrackId card bank deposit nid birthDate : String)
    (file : FileInput) (fromDate toDate identityNumber : Option String) :
    (∀ r ∈ (OakService.ibanInquiry env transport iban (some tId)).2,
        ("trackId", tId) ∈ r.params)
    ∧ (∀ r ∈ (OakService.submitGroupIbanInquiry env transport file (some tId)).2,
        ("trackId", tId) ∈ r.params)
    ∧ (∀ r ∈ (OakService.retryGroupIbanInquiry env transport inquiryTrackId (some tId)).2,
        ("trackId", tId) ∈ r.params)
    ∧ (∀ r ∈ (OakService.getResultOfGroupIbanInquiry env transport inquiryTrackId (some tId)).2,
        ("trackId", tId) ∈ r.params)
    ∧ (∀ r ∈ (OakService.cardBalance env transport card (some tId)).2,
        ("trackId", tId) ∈ r.params)
    ∧ (∀ r ∈ (OakService.cardStatement env transport card fromDate toDate (some tId)).2,
        ("trackId", tId) ∈ r.params)
    ∧ (∀ r ∈ (OakService.depositToIban env transport bank deposit (some tId)).2,
        ("trackId", tId) ∈ r.params)
    ∧ (∀ r ∈ (OakService.cifInquiry env transport nid (some tId)).2,
        ("trackId", tId) ∈ r.params)
    ∧ (∀ r ∈ (OakService.shahabInquiry env transport nid birthDate identityNumber (some tId)).2,
        ("trackId", tId) ∈ r.params) := by
  refine ⟨?_, ?_, ?_, ?_, ?_, ?_, ?_, ?_, ?_⟩ <;>
    (intro r hr
     simp only [OakService.ibanInquiry, OakService.submitGroupIbanInquiry,
       OakService.retryGroupIbanInquiry, OakService.getResultOfGroupIbanInquiry,
       OakService.cardBalance, OakService.cardStatement, OakService.depositToIban,
       OakService.cifInquiry, OakService.shahabInquiry] at hr
     split at hr
     · simp at hr
     · split at hr <;> (simp at hr; subst hr; simp [jsOr, htId]))

/-- C1 (amended) witness: the non-empty trackId `TR-9` is used verbatim by
every operation in the sample environment. -/
theorem C1_supplied_trackId_verbatim_witness :
    ("TR-9" : String) ≠ ""
    ∧ ((∀ r ∈ (OakService.ibanInquiry sampleEnv sampleTransport "IR123" (some "TR-9")).2,
        ("trackId", "TR-9") ∈ r.params)
    ∧ (∀ r ∈ (OakService.submitGroupIbanInquiry sampleEnv sampleTransport
          (.buffer [1, 2]) (some "TR-9")).2,
        ("trackId", "TR-9") ∈ r.params)
    ∧ (∀ r ∈ (OakService.retryGroupIbanInquiry sampleEnv sampleTransport "IQT" (some "TR-9")).2,
        ("trackId", "TR-9") ∈ r.params)
    ∧ (∀ r ∈ (OakService.getResultOfGroupIbanInquiry sampleEnv sampleTransport "IQT"
          (some "TR-9")).2,
        ("trackId", "TR-9") ∈ r.params)
    ∧ (∀ r ∈ (OakService.cardBalance sampleEnv sampleTransport "6219861012345678"
          (some "TR-9")).2,
        ("trackId", "TR-9") ∈ r.params)
    ∧ (∀ r ∈ (OakService.cardStatement sampleEnv sampleTransport "6219861012345678"
          none none (some "TR-9")).2,
        ("trackId", "TR-9") ∈ r.params)
    ∧ (∀ r ∈ (OakService.depositToIban sampleEnv sampleTransport "062" "12345" (some "TR-9")).2,
        ("trackId", "TR-9") ∈ r.params)
    ∧ (∀ r ∈ (OakService.cifInquiry sampleEnv sampleTransport "0012345678" (some "TR-9")).2,
        ("trackId", "TR-9") ∈ r.params)
    ∧ (∀ r ∈ (OakService.shahabInquiry sampleEnv sampleTransport "0012345678" "13700101"
          none (some "TR-9")).2,
        ("trackId", "TR-9") ∈ r.params)) :=
  ⟨by decide,
    C1_supplied_trackId_verbatim sampleEnv sampleTransport "TR-9" (by decide)
      "IR123" "IQT" "6219861012345678" "062" "12345" "0012345678" "13700101"
      (.buffer [1, 2]) none none none⟩

/-- C2: for every OakService domain method, whenever the injected
transport rejects the request(s) this call issued with an error `e`, the
method rejects with exactly that `e` (no transformation, no status-code
branching) after issuing exactly one HTTP request (no retry).  The
access-token delegate is an arbitrary scope-dependent succeeding
function. -/
theorem C2_transport_error_propagated {D : Type} (env : OakEnv) (e : JsError)
    (f : String → Except JsError String) (tokOf : String → String)
    (hAcc : env.ts.getAccessTokenFn = some f)
    (hok : ∀ s, f s = .ok (tokOf s))
    (transport : HttpRequest → Except JsError (AxiosResponse D))
    (iban inquiryTrackId card bank deposit nid birthDate : String)
    (file : FileInput) (fromDate toDate identityNumber trackId : Option String) :
    ((∀ r ∈ (OakService.ibanInquiry env transport iban trackId).2,
        transport r = .error e)
      → (OakService.ibanInquiry env transport iban trackId).1 = .error e
        ∧ (OakService.ibanInquiry env transport iban trackId).2.length = 1)
    ∧ ((∀ r ∈ (OakService.submitGroupIbanInquiry env transport file trackId).2,
        transport r = .error e)
      → (OakService.submitGroupIbanInquiry env transport file trackId).1 = .error e
        ∧ (OakService.submitGroupIbanInquiry env transport file trackId).2.length = 1)
    ∧ ((∀ r ∈ (OakService.retryGroupIbanInquiry env transport inquiryTrackId trackId).2,
        transport r = .error e)
      → (OakService.retryGroupIbanInquiry env transport inquiryTrackId trackId).1 = .error e
        ∧ (OakService.retryGroupIbanInquiry env transport inquiryTrackId trackId).2.length = 1)
    ∧ ((∀ r ∈ (OakService.getResultOfGroupIbanInquiry env transport inquiryTrackId trackId).2,
        transport r = .error e)
      → (OakService.getResultOfGroupIbanInquiry env transport inquiryTrackId trackId).1
          = .error e
        ∧ (OakService.getResultOfGroupIbanInquiry env transport
            inquiryTrackId trackId).2.length = 1)
    ∧ ((∀ r ∈ (OakService.cardBalance env transport card trackId).2,
        transport r = .error e)
      → (OakService.cardBalance env transport card trackId).1 = .error e
        ∧ (OakService.cardBalance env transport card trackId).2.length = 1)
    ∧ ((∀ r ∈ (OakService.cardStatement env transport card fromDate toDate trackId).2,
        transport r = .error e)
      → (OakService.cardStatement env transport card fromDate toDate trackId).1 = .error e
        ∧ (OakService.cardStatement env transport card fromDate toDate trackId).2.length = 1)
    ∧ ((∀ r ∈ (OakService.depositToIban env transport bank deposit trackId).2,
        transport r = .error e)
      → (OakService.depositToIban env transport bank deposit trackId).1 = .error e
        ∧ (OakService.depositToIban env transport bank deposit trackId).2.length = 1)
    ∧ ((∀ r ∈ (OakService.cifInquiry env transport nid trackId).2,
        transport r = .error e)
      → (OakService.cifInquiry env transport nid trackId).1 = .error e
        ∧ (OakService.cifInquiry env transport nid trackId).2.length = 1)
    ∧ ((∀ r ∈ (OakService.shahabInquiry env transport nid birthDate
          identityNumber trackId).2, transport r = .error e)
      → (OakService.shahabInquiry env transport nid birthDate identityNumber trackId).1
          = .error e
        ∧ (OakService.shahabInquiry env transport nid birthDate
            identityNumber trackId).2.length = 1) := by
  refine ⟨?_, ?_, ?_, ?_, ?_, ?_, ?_, ?_, ?_⟩ <;>
    (intro hfl
     simp only [OakService.ibanInquiry, OakService.submitGroupIbanInquiry,
       OakService.retryGroupIbanInquiry, OakService.getResultOfGroupIbanInquiry,
       OakService.cardBalance, OakService.cardStatement, OakService.depositToIban,
       OakService.cifInquiry, OakService.shahabInquiry,
       TokenService.getAccessToken, hAcc, hok] at hfl ⊢
     split
     next resp hE =>
       simp only [hE] at hfl
       have h2 := hfl _ (List.mem_singleton.mpr rfl)
       rw [h2] at hE
       cases hE
     next e2 hE =>
       simp only [hE] at hfl
       have h2 := hfl _ (List.mem_singleton.mpr rfl)
       rw [h2] at hE
       cases hE
       simp)

/-- C2 witness: in the sample environment, with a transport failing like
an HTTP 500, `ibanInquiry` rejects with exactly that error after one
request (the applied theorem also covers the other eight methods). -/
theorem C2_transport_error_propagated_witness :
    sampleEnv.ts.getAccessTokenFn = some (fun _ => .ok "TOK")
    ∧ (∀ s, ((fun _ => .ok "TOK") : String → Except JsError String) s = .ok "TOK")
    ∧ (∀ r ∈ (OakService.ibanInquiry sampleEnv failTransport "IR123" (some "TR-2")).2,
        failTransport r = .error (.axiosErr 500))
    ∧ (OakService.ibanInquiry sampleEnv failTransport "IR123" (some "TR-2")).1
        = .error (.axiosErr 500)
    ∧ (OakService.ibanInquiry sampleEnv failTransport "IR123" (some "TR-2")).2.length = 1 :=
  ⟨rfl, fun _ => rfl, fun _ _ => rfl,
    ((C2_transport_error_propagated sampleEnv (.axiosErr 500) (fun _ => .ok "TOK")
       (fun _ => "TOK") rfl (fun _ => rfl) failTransport "IR123" "IQT" "6219861012345678"
       "062" "12345" "0012345678" "13700101" (.buffer [1, 2]) none none none
       (some "TR-2")).1 (fun _ _ => rfl)).1,
    ((C2_transport_error_propagated sampleEnv (.axiosErr 500) (fun _ => .ok "TOK")
       (fun _ => "TOK") rfl (fun _ => rfl) failTransport "IR123" "IQT" "6219861012345678"
       "062" "12345" "0012345678" "13700101" (.buffer [1, 2]) none none none
       (some "TR-2")).1 (fun _ _ => rfl)).2⟩

/-- C10: if the token provider's access-token delegate rejects with `e`,
every OakService domain method rejects with that same `e` and issues zero
HTTP requests, for an arbitrary transport: the token is obtained before
any request is built or sent. -/
theorem C10_access_failure_no_http {D : Type} (env : OakEnv) (e : JsError)
    (hAcc : env.ts.getAccessTokenFn = some (fun _ => .error e))
    (transport : HttpRequest → Except JsError (AxiosResponse D))
    (iban inquiryTrackId card bank deposit nid birthDate : String)
    (file : FileInput) (fromDate toDate identityNumber trackId : Option String) :
    OakService.ibanInquiry env transport iban trackId = (.error e, [])
    ∧ OakService.submitGroupIbanInquiry env transport file trackId = (.error e, [])
    ∧ OakService.retryGroupIbanInquiry env transport inquiryTrackId trackId = (.error e, [])
    ∧ OakService.getResultOfGroupIbanInquiry env transport inquiryTrackId trackId
        = (.error e, [])
    ∧ OakService.cardBalance env transport card trackId = (.error e, [])
    ∧ OakService.cardStatement env transport card fromDate toDate trackId = (.error e, [])
    ∧ OakService.depositToIban env transport bank deposit trackId = (.error e, [])
    ∧ OakService.cifInquiry env transport nid trackId = (.error e, [])
    ∧ OakService.shahabInquiry env transport nid birthDate identityNumber trackId
        = (.error e, []) := by
  refine ⟨?_, ?_, ?_, ?_, ?_, ?_, ?_, ?_, ?_⟩ <;>
    simp [OakService.ibanInquiry, OakService.submitGroupIbanInquiry,
      OakService.retryGroupIbanInquiry, OakService.getResultOfGroupIbanInquiry,
      OakService.cardBalance, OakService.cardStatement, OakService.depositToIban,
      OakService.cifInquiry, OakService.shahabInquiry,
      TokenService.getAccessToken, hAcc]

/-- C10 witness: in the environment whose access delegate rejects like an
HTTP 401, `ibanInquiry` (with an always-succeeding transport) rejects with
that error and issues zero requests. -/
theorem C10_access_failure_no_http_witness :
    failingAccessEnv.ts.getAccessTokenFn = some (fun _ => .error (.axiosErr 401))
    ∧ OakService.ibanInquiry failingAccessEnv sampleTransport "IR123" (some "TR-3")
        = (.error (.axiosErr 401), []) :=
  ⟨rfl,
    (C10_access_failure_no_http failingAccessEnv (.axiosErr 401) rfl sampleTransport
      "IR123" "IQT" "6219861012345678" "062" "12345" "0012345678" "13700101"
      (.buffer [1, 2]) none none none (some "TR-3")).1⟩

/-- C7: with the access-token delegate returning `tok` and the transport
resolving with `resp`, `ibanInquiry` issues exactly one GET to
`/oak/v2/clients/(clientId)/ibanInquiry` with query parameters `iban` and
`trackId` (the supplied one, or the generated identifier via `||`),
headers `Authorization: Bearer tok` and
`X-Scope-Name: oak:iban-inquiry:get`, no body, and returns the
transport's parsed response body unchanged. -/
theorem C7_ibanInquiry_request_shape {D : Type} (env : OakEnv) (tok : String)
    (hAcc : env.ts.getAccessTokenFn = some (fun _ => .ok tok))
    (transport : HttpRequest → Except JsError (AxiosResponse D))
    (resp : AxiosResponse D) (ht : ∀ r, transport r = .ok resp)
    (iban : String) (trackId : Option String) :
    OakService.ibanInquiry env transport iban trackId
      = (.ok resp.data,
         [{ method := "GET",
            path := "/oak/v2/clients/" ++ env.ts.clientId ++ "/ibanInquiry",
            params := [("iban", iban), ("trackId", jsOr trackId env.uuid)],
            headers := [("Authorization", "Bearer " ++ tok),
                        ("X-Scope-Name", "oak:iban-inquiry:get")],
            body := .empty }]) := by
  simp [OakService.ibanInquiry, TokenService.getAccessToken, hAcc, ht, SCOPES.ibanInquiry]

/-- C7 witness: the concrete sample environment; the supplied trackId
`TR-7` is non-empty so it is the one sent. -/
theorem C7_ibanInquiry_request_shape_witness :
    sampleEnv.ts.getAccessTokenFn = some (fun _ => .ok "TOK")
    ∧ (∀ r, sampleTransport r = .ok ⟨7⟩)
    ∧ OakService.ibanInquiry sampleEnv sampleTransport "IR123" (some "TR-7")
      = (.ok 7,
         [{ method := "GET",
            path := "/oak/v2/clients/cid/ibanInquiry",
            params := [("iban", "IR123"), ("trackId", "TR-7")],
            headers := [("Authorization", "Bearer TOK"),
                        ("X-Scope-Name", "oak:iban-inquiry:get")],
            body := .empty }]) :=
  ⟨rfl, fun _ => rfl,
    C7_ibanInquiry_request_shape sampleEnv "TOK" rfl sampleTransport ⟨7⟩
      (fun _ => rfl) "IR123" (some "TR-7")⟩

/-- C9: `cardBalance` issues a POST to
`/oak/v2/clients/(clientId)/card/balance` while both the `X-Scope-Name`
header and the scope handed to the access-token delegate are the
GET-style name `oak:card-balance:get` (the registry entry's value): the
scope-name/HTTP-verb mismatch of the source is preserved.  The delegate
`f` is arbitrary, constrained only at `oak:card-balance:get`, so the
token in the Bearer header can only come from invoking `f` at exactly
that scope. -/
theorem C9_cardBalance_post_get_scope {D : Type} (env : OakEnv)
    (f : String → Except JsError String) (hAcc : env.ts.getAccessTokenFn = some f)
    (tok : String) (hf : f "oak:card-balance:get" = .ok tok)
    (transport : HttpRequest → Except JsError (AxiosResponse D))
    (resp : AxiosResponse D) (ht : ∀ r, transport r = .ok resp)
    (card : String) (trackId : Option String) :
    SCOPES.cardBalance.name = "oak:card-balance:get"
    ∧ OakService.cardBalance env transport card trackId
      = (.ok resp.data,
         [{ method := "POST",
            path := "/oak/v2/clients/" ++ env.ts.clientId ++ "/card/balance",
            params := [("trackId", jsOr trackId env.uuid)],
            headers := [("Authorization", "Bearer " ++ tok),
                        ("X-Scope-Name", "oak:card-balance:get")],
            body := .json [("card", card)] }]) := by
  refine ⟨rfl, ?_⟩
  simp [OakService.cardBalance, TokenService.getAccessToken, hAcc, hf, ht,
        SCOPES.cardBalance]

/-- C9 witness: concrete sample environment. -/
theorem C9_cardBalance_post_get_scope_witness :
    sampleEnv.ts.getAccessTokenFn = some (fun _ => .ok "TOK")
    ∧ (fun _ => .ok "TOK" : String → Except JsError String) "oak:card-balance:get" = .ok "TOK"
    ∧ (∀ r, sampleTransport r = .ok ⟨7⟩)
    ∧ SCOPES.cardBalance.name = "oak:card-balance:get"
    ∧ OakService.cardBalance sampleEnv sampleTransport "6219861012345678" (some "TR-4")
      = (.ok 7,
         [{ method := "POST",
            path := "/oak/v2/clients/cid/card/balance",
            params := [("trackId", "TR-4")],
            headers := [("Authorization", "Bearer TOK"),
                        ("X-Scope-Name", "oak:card-balance:get")],
            body := .json [("card", "6219861012345678")] }]) :=
  ⟨rfl, rfl, fun _ => rfl,
    (C9_cardBalance_post_get_scope sampleEnv (fun _ => .ok "TOK") rfl "TOK" rfl
      sampleTransport ⟨7⟩ (fun _ => rfl) "6219861012345678" (some "TR-4")).1,
    (C9_cardBalance_post_get_scope sampleEnv (fun _ => .ok "TOK") rfl "TOK" rfl
      sampleTransport ⟨7⟩ (fun _ => rfl) "6219861012345678" (some "TR-4")).2⟩

/-- C8: for every byte buffer and its base64 string encoding,
`submitGroupIbanInquiry` behaves identically on the two inputs: the
decoded bytes attached as `ibans.csv` in the multipart body — and hence
the entire issued request and result — are byte-identical. -/
theorem C8_buffer_base64_same_multipart {D : Type} (env : OakEnv)
    (transport : HttpRequest → Except JsError (AxiosResponse D))
    (trackId : Option String) (bytes : List Nat) (h : ∀ b ∈ bytes, b < 256) :
    OakService.submitGroupIbanInquiry env transport
        (.base64 (base64Encode bytes)) trackId
      = OakService.submitGroupIbanInquiry env transport (.buffer bytes) trackId := by
  have hf : (FileInput.base64 (base64Encode bytes)).finalFile
      = (FileInput.buffer bytes).finalFile := base64DecodeChars_encode bytes h
  simp only [OakService.submitGroupIbanInquiry, hf]

/-- C8 witness: a concrete five-byte buffer (including 0, 255 and a
newline) and its base64 encoding produce the same call. -/
theorem C8_buffer_base64_same_multipart_witness :
    (∀ b ∈ [0, 77, 255, 10, 32], b < 256)
    ∧ OakService.submitGroupIbanInquiry sampleEnv sampleTransport
        (.base64 (base64Encode [0, 77, 255, 10, 32])) (some "TR-8")
      = OakService.submitGroupIbanInquiry sampleEnv sampleTransport
        (.buffer [0, 77, 255, 10, 32]) (some "TR-8") :=
  ⟨by decide,
    C8_buffer_base64_same_multipart sampleEnv sampleTransport (some "TR-8")
      [0, 77, 255, 10, 32] (by decide)⟩
